import Mathlib

/-!
Shallow embedding of the fluss IPFIX collector (Dav1dde/fluss).

Byte strings are modelled as `List Nat` (one entry per byte).  A nom-style
parser `List Nat → Option (List Nat × α)` returns `none` on failure and
`some (rest, value)` on success, mirroring nom's `IResult`.  Rust panics
(`panic!`, `unwrap`, `assert_eq!`, and `u16` subtraction underflow in debug
builds) are also modelled as `none`; every such place is marked with a
comment at the definition that introduces it.
-/

namespace Fluss

/-- nom `be_u8`: one byte. -/
def be_u8 : List Nat → Option (List Nat × Nat)
  | b :: rest => some (rest, b)
  | [] => none

/-- nom `be_u16`: two bytes, big endian. -/
def be_u16 : List Nat → Option (List Nat × Nat)
  | a :: b :: rest => some (rest, a * 256 + b)
  | _ => none

/-- Big-endian value of a byte list. -/
def beNat (bytes : List Nat) : Nat := bytes.foldl (fun acc b => acc * 256 + b) 0

/-- nom `take n`: returns `(rest, taken)`. -/
def takeBytes (n : Nat) (input : List Nat) : Option (List Nat × List Nat) :=
  if n ≤ input.length then some (input.drop n, input.take n) else none

/-- nom `be_u32`: four bytes, big endian. -/
def be_u32 (input : List Nat) : Option (List Nat × Nat) :=
  if 4 ≤ input.length then some (input.drop 4, beNat (input.take 4)) else none

/-- nom `be_u64`: eight bytes, big endian. -/
def be_u64 (input : List Nat) : Option (List Nat × Nat) :=
  if 8 ≤ input.length then some (input.drop 8, beNat (input.take 8)) else none

/-- nom `be_u128`: sixteen bytes, big endian. -/
def be_u128 (input : List Nat) : Option (List Nat × Nat) :=
  if 16 ≤ input.length then some (input.drop 16, beNat (input.take 16)) else none

/-! ## src/protocol.rs -/

/-- `Value` from src/protocol.rs.  Integer variants carry the numeric value;
`String` carries the raw utf-8 bytes; MAC variants carry their byte lists. -/
inductive Value where
  | U8 (v : Nat)
  | U16 (v : Nat)
  | U32 (v : Nat)
  | U64 (v : Nat)
  | Bytes (b : List Nat)
  | String (s : List Nat)
  | Ipv4Addr (v : Nat)
  | Ipv6Addr (v : Nat)
  | MacAddr6 (b : List Nat)
  | MacAddr8 (b : List Nat)
  | Unknown (b : List Nat)
  deriving Repr, DecidableEq

/-- `Value::as_u8`. -/
def Value.as_u8 : Value → Option Nat
  | .U8 v => some v
  | _ => none

/-- `Value::as_u16`. -/
def Value.as_u16 : Value → Option Nat
  | .U8 v => some v
  | .U16 v => some v
  | _ => none

/-- `Value::as_u32`. -/
def Value.as_u32 : Value → Option Nat
  | .U8 v => some v
  | .U16 v => some v
  | .U32 v => some v
  | _ => none

/-- `Value::as_u64`. -/
def Value.as_u64 : Value → Option Nat
  | .U8 v => some v
  | .U16 v => some v
  | .U32 v => some v
  | .U64 v => some v
  | _ => none

/-- `Value::as_ipv4` (exact-variant match). -/
def Value.as_ipv4 : Value → Option Nat
  | .Ipv4Addr v => some v
  | _ => none

/-- `Value::as_mac6` (exact-variant match). -/
def Value.as_mac6 : Value → Option (List Nat)
  | .MacAddr6 b => some b
  | _ => none

/-- `parse_u8`: `read_u8(input).map(..).unwrap()`; the unwrap panic on empty
input is modelled as `none`. -/
def parse_u8 (input : List Nat) : Option Value :=
  (be_u8 input).map fun r => Value.U8 r.2

/-- `parse_u16`. -/
def parse_u16 (input : List Nat) : Option Value :=
  (be_u16 input).map fun r => Value.U16 r.2

/-- `parse_u32`. -/
def parse_u32 (input : List Nat) : Option Value :=
  (be_u32 input).map fun r => Value.U32 r.2

/-- `parse_u64`. -/
def parse_u64 (input : List Nat) : Option Value :=
  (be_u64 input).map fun r => Value.U64 r.2

/-- `parse_number` from src/protocol.rs: dispatch on the slice length; the
wildcard arm is `panic!("invalid byte length ...")`, modelled as `none`. -/
def parse_number (input : List Nat) : Option Value :=
  if input.length = 8 then parse_u64 input
  else if input.length = 4 then parse_u32 input
  else if input.length = 2 then parse_u16 input
  else if input.length = 1 then parse_u8 input
  else none

/-- `parse_ipv4`: `read_u32(input).map(..).unwrap()`; unwrap panic on short
input modelled as `none`. -/
def parse_ipv4 (input : List Nat) : Option Value :=
  (be_u32 input).map fun r => Value.Ipv4Addr r.2

/-- `parse_ipv6`. -/
def parse_ipv6 (input : List Nat) : Option Value :=
  (be_u128 input).map fun r => Value.Ipv6Addr r.2

/-- `parse_mac`: dispatch on length 6 / 8; the wildcard arm is a `panic!`,
modelled as `none`.  `parse_mac6`/`parse_mac8` copy the six / eight bytes. -/
def parse_mac (input : List Nat) : Option Value :=
  if input.length = 6 then some (Value.MacAddr6 input)
  else if input.length = 8 then some (Value.MacAddr8 input)
  else none

/-! ## src/ipfix/parser.rs -/

/-- `FieldSpecifier` from src/ipfix/parser.rs. -/
structure FieldSpecifier where
  id : Nat
  length : Nat
  enterprise_id : Option Nat
  deriving Repr, DecidableEq

/-- `TemplateRecord`. -/
structure TemplateRecord where
  id : Nat
  fields : List FieldSpecifier
  deriving Repr, DecidableEq

/-- `DataSet` (borrowed payload modelled as an owned byte list). -/
structure DataSet where
  id : Nat
  data : List Nat
  deriving Repr, DecidableEq

/-- `Set`. -/
inductive Set where
  | DataSet (d : DataSet)
  | OptionsSet
  | TemplateSet (records : List TemplateRecord)
  deriving Repr, DecidableEq

/-- `Packet`. -/
structure Packet where
  version : Nat
  export_time : Nat
  sequence_number : Nat
  observation_domain_id : Nat
  sets : List Set
  deriving Repr, DecidableEq

/-- `parse_field_specifier`: `id: be_u16 >> length: be_u16 >>
enterprise_id: cond!(id > 0x8000, be_u32)`, then the id is masked with
`0x7fff`.  Note the source condition is the strict comparison
`id > 0x8000`, not a test of bit 15. -/
def parse_field_specifier (input : List Nat) : Option (List Nat × FieldSpecifier) := do
  let (input, id) ← be_u16 input
  let (input, length) ← be_u16 input
  let (input, enterprise_id) ←
    if 0x8000 < id then (be_u32 input).map fun r => (r.1, some r.2)
    else some (input, (none : Option Nat))
  pure (input, { id := id &&& 0x7fff, length := length, enterprise_id := enterprise_id })

/-- `length_count!(be_u16, parse_field_specifier)` body: apply a parser a
given number of times. -/
def countP {α : Type} (p : List Nat → Option (List Nat × α)) :
    Nat → List Nat → Option (List Nat × List α)
  | 0, input => some (input, [])
  | n + 1, input => do
    let (input, a) ← p input
    let (input, rest) ← countP p n input
    pure (input, a :: rest)

/-- One template record inside a template set:
`id: be_u16 >> fields: length_count!(be_u16, parse_field_specifier)`. -/
def parse_template_record (input : List Nat) : Option (List Nat × TemplateRecord) := do
  let (input, id) ← be_u16 input
  let (input, n) ← be_u16 input
  let (input, fields) ← countP parse_field_specifier n input
  pure (input, { id := id, fields := fields })

/-- Fuelled iteration for nom `many1`: apply `p` until it fails.  The fuel is
an upper bound on the number of iterations; every parser iterated in this
development consumes at least one byte per success, so fuel equal to the
input length is enough. -/
def many0Go {α : Type} (p : List Nat → Option (List Nat × α)) :
    Nat → List Nat → List α × List Nat
  | 0, input => ([], input)
  | fuel + 1, input =>
    match p input with
    | none => ([], input)
    | some (rest, a) =>
      let r := many0Go p fuel rest
      (a :: r.1, r.2)

/-- nom `many1!(p)`: at least one success, then repeat until failure. -/
def many1P {α : Type} (p : List Nat → Option (List Nat × α)) (input : List Nat) :
    Option (List Nat × List α) :=
  match p input with
  | none => none
  | some (rest, a) =>
    let r := many0Go p rest.length rest
    some (r.2, a :: r.1)

/-- `do_parse_template_set`: `many1!` of template records. -/
def do_parse_template_set (input : List Nat) : Option (List Nat × List TemplateRecord) :=
  many1P parse_template_record input

/-- `parse_template_set`.  `take(length - 4)` underflows (panics) for
`length < 4`, and the `assert_eq!(r.len(), 0)` panics on leftover bytes;
both are modelled as `none`. -/
def parse_template_set (input : List Nat) : Option (List Nat × Set) := do
  let (input, _) ← be_u16 input
  let (input, length) ← be_u16 input
  if length < 4 then none
  else do
    let (input, data) ← takeBytes (length - 4) input
    let (r, sets) ← do_parse_template_set data
    if r.length = 0 then pure (input, Set.TemplateSet sets) else none

/-- `parse_options_set`: consumes the body, emits `OptionsSet`. -/
def parse_options_set (input : List Nat) : Option (List Nat × Set) := do
  let (input, _) ← be_u16 input
  let (input, length) ← be_u16 input
  if length < 4 then none
  else do
    let (input, _data) ← takeBytes (length - 4) input
    pure (input, Set.OptionsSet)

/-- `parse_data_set` (wire level): `id: be_u16 >> length: be_u16 >>
data: take!(length - 4)`. -/
def parse_data_set (input : List Nat) : Option (List Nat × Set) := do
  let (input, id) ← be_u16 input
  let (input, length) ← be_u16 input
  if length < 4 then none
  else do
    let (input, data) ← takeBytes (length - 4) input
    pure (input, Set.DataSet { id := id, data := data })

/-- `parse_set`: peek the set id; `2` is a template set, `3` an options set,
and every other id (reserved ids included) falls through to the data-set
branch — the source has no reserved-id check. -/
def parse_set (input : List Nat) : Option (List Nat × Set) := do
  let (_, sid) ← be_u16 input
  if sid = 2 then parse_template_set input
  else if sid = 3 then parse_options_set input
  else parse_data_set input

/-- `do_parse` (packet level) from src/ipfix/parser.rs.  Reads the header
`version | length | export_time | sequence_number | observation_domain_id`,
then `many1!(complete!(parse_set))`; the two `assert_eq!` panics on leftover
bytes are modelled as `none`.  There is no check of the version field. -/
def do_parse (input : List Nat) : Option (List Nat × Packet) := do
  let (input, version) ← be_u16 input
  let (input, length) ← be_u16 input
  if length < 4 then none
  else do
    let (remaining, input) ← takeBytes (length - 4) input
    let (input, export_time) ← be_u32 input
    let (input, sequence_number) ← be_u32 input
    let (input, observation_domain_id) ← be_u32 input
    let (rest, sets) ← many1P parse_set input
    if rest.length = 0 ∧ remaining.length = 0 then
      pure (remaining,
        { version := version, export_time := export_time,
          sequence_number := sequence_number,
          observation_domain_id := observation_domain_id, sets := sets })
    else none

/-- `parse`: the public packet parser (`anyhow` error modelled as `none`). -/
def parse (input : List Nat) : Option Packet :=
  (do_parse input).map Prod.snd

/-! ## src/ipfix/session.rs -/

/-- The template cache `HashMap<u16, Vec<FieldSpecifier>>`, modelled
extensionally as a function from template id to the cached field list. -/
abbrev Templates := Nat → Option (List FieldSpecifier)

/-- `HashMap::insert`: the new binding replaces any previous one. -/
def Templates.insert (t : Templates) (id : Nat) (fields : List FieldSpecifier) : Templates :=
  fun k => if k = id then some fields else t k

/-- The empty cache of a fresh `Session`. -/
def emptyTemplates : Templates := fun _ => none

/-- `Session::add_records`: insert every record of a template set. -/
def Session.add_records (templates : Templates) (records : List TemplateRecord) : Templates :=
  records.foldl (fun ts r => Templates.insert ts r.id r.fields) templates

/-- Fuelled core of `slice::chunks`: fuel bounds the number of chunks
(the input length suffices whenever the chunk size is positive). -/
def chunksGo {α : Type} (n : Nat) : Nat → List α → List (List α)
  | _, [] => []
  | 0, _ :: _ => []
  | fuel + 1, x :: xs => (x :: xs).take n :: chunksGo n fuel ((x :: xs).drop n)

/-- `slice::chunks(n)`: all chunks of size `n`, the last one possibly
shorter.  Rust panics for `n = 0` (modelled as the empty list; every theorem
below that touches chunking assumes a positive stride). -/
def chunksList {α : Type} (n : Nat) (xs : List α) : List (List α) :=
  if n = 0 then [] else chunksGo n xs.length xs

/-- `Session::parse_data_set`: look up the template (miss emits nothing),
compute the stride as the sum of the field lengths, chunk the payload and
run the attached projector on every chunk, keeping the `Some` results.
Note `chunks` also yields the trailing partial chunk when the payload is
not a multiple of the stride. -/
def Session.parse_data_set {Output : Type}
    (parser : List FieldSpecifier → DataSet → Option Output)
    (templates : Templates) (set : DataSet) : List Output :=
  match templates set.id with
  | none => []
  | some fields =>
    let length := (fields.map fun f => f.length).sum
    (chunksList length set.data).filterMap fun data =>
      parser fields { id := set.id, data := data }

/-- `Session::parse`: fold over the packet's sets in wire order, threading
the template cache (templates installed earlier in the datagram are visible
to later data sets); returns the final cache and the emitted outputs. -/
def Session.parse {Output : Type}
    (parser : List FieldSpecifier → DataSet → Option Output)
    (templates : Templates) (packet : Packet) : Templates × List Output :=
  packet.sets.foldl
    (fun acc s =>
      match s with
      | Set.TemplateSet records => (Session.add_records acc.1 records, acc.2)
      | Set.DataSet d => (acc.1, acc.2 ++ Session.parse_data_set parser acc.1 d)
      | Set.OptionsSet => acc)
    (templates, [])

/-! ## src/produce/ipfix.rs — the flow projector -/

/-- `std::net::IpAddr`, addresses as their numeric value. -/
inductive IpAddr where
  | V4 (addr : Nat)
  | V6 (addr : Nat)
  deriving Repr, DecidableEq

/-- `FlowType`. -/
inductive FlowType where
  | IPFIX
  deriving Repr, DecidableEq

/-- `Ipv4Addr::new(127, 0, 0, 1)`. -/
def localhost : IpAddr := IpAddr.V4 0x7f000001

/-- `MacAddr6::broadcast()`. -/
def macBroadcast : List Nat := [255, 255, 255, 255, 255, 255]

/-- The canonical `Fluss` flow record (src/fluss.rs), restricted to the
fields the projector in src/produce/ipfix.rs actually sets.  `flow_age` is
a `Duration` stored as whole milliseconds; `time_received` (wall clock) is
not modelled. -/
structure Fluss where
  type : FlowType
  flow_age : Nat
  bytes : Nat
  packets : Nat
  ethernet_type : Nat
  src_mac : List Nat
  dst_mac : List Nat
  src_addr : IpAddr
  dst_addr : IpAddr
  src_net : Nat
  dst_net : Nat
  src_port : Nat
  dst_port : Nat
  vlan_id : Nat
  post_vlan_id : Nat
  post_nat_src_addr : IpAddr
  post_nat_dst_addr : IpAddr
  post_napt_src_port : Nat
  post_napt_dst_port : Nat
  next_hop_addr : IpAddr
  deriving Repr, DecidableEq

/-- The mutable locals of `IpfixParser::parse`; `start`/`end` are the two
sysuptime `Duration`s in milliseconds (`end` is a Lean keyword, hence
`end_`). -/
structure FlowAcc where
  bytes : Nat
  packets : Nat
  ethernet_type : Nat
  src_mac : List Nat
  dst_mac : List Nat
  src_addr : IpAddr
  dst_addr : IpAddr
  src_net : Nat
  dst_net : Nat
  src_port : Nat
  dst_port : Nat
  vlan_id : Nat
  post_vlan_id : Nat
  post_nat_src_addr : IpAddr
  post_nat_dst_addr : IpAddr
  post_napt_src_port : Nat
  post_napt_dst_port : Nat
  next_hop_addr : IpAddr
  start : Nat
  end_ : Nat
  deriving Repr, DecidableEq

/-- The initial values of the locals: numerics zero, addresses 127.0.0.1,
MACs broadcast. -/
def flowAccInit : FlowAcc :=
  { bytes := 0, packets := 0, ethernet_type := 0,
    src_mac := macBroadcast, dst_mac := macBroadcast,
    src_addr := localhost, dst_addr := localhost,
    src_net := 0, dst_net := 0, src_port := 0, dst_port := 0,
    vlan_id := 0, post_vlan_id := 0,
    post_nat_src_addr := localhost, post_nat_dst_addr := localhost,
    post_napt_src_port := 0, post_napt_dst_port := 0,
    next_hop_addr := localhost, start := 0, end_ := 0 }

/-- `IpAddr::V4(*parse_ipv4(data).as_ipv4().unwrap())`; unwrap panic
modelled as `none`. -/
def readIpv4 (data : List Nat) : Option IpAddr :=
  ((parse_ipv4 data).bind Value.as_ipv4).map IpAddr.V4

/-- One arm of the `match field.id` in `IpfixParser::parse`.  Every
`unwrap()` panic (wrong number width for the coercion, wrong MAC length,
short IPv4 slice) is modelled as `none`.  Unrecognized ids are skipped. -/
def ipfixStep (acc : FlowAcc) (fid : Nat) (data : List Nat) : Option FlowAcc :=
  if fid = 1 then ((parse_number data).bind Value.as_u64).map fun v => { acc with bytes := v }
  else if fid = 2 then
    ((parse_number data).bind Value.as_u64).map fun v => { acc with packets := v }
  else if fid = 23 then
    ((parse_number data).bind Value.as_u64).map fun v => { acc with bytes := v }
  else if fid = 24 then
    ((parse_number data).bind Value.as_u64).map fun v => { acc with packets := v }
  else if fid = 256 then
    ((parse_number data).bind Value.as_u16).map fun v => { acc with ethernet_type := v }
  else if fid = 21 then
    ((parse_number data).bind Value.as_u64).map fun v => { acc with end_ := v }
  else if fid = 22 then
    ((parse_number data).bind Value.as_u64).map fun v => { acc with start := v }
  else if fid = 56 then
    ((parse_mac data).bind Value.as_mac6).map fun m => { acc with src_mac := m }
  else if fid = 81 then
    ((parse_mac data).bind Value.as_mac6).map fun m => { acc with dst_mac := m }
  else if fid = 8 then (readIpv4 data).map fun a => { acc with src_addr := a }
  else if fid = 12 then (readIpv4 data).map fun a => { acc with dst_addr := a }
  else if fid = 9 then
    ((parse_number data).bind Value.as_u8).map fun v => { acc with src_net := v }
  else if fid = 13 then
    ((parse_number data).bind Value.as_u8).map fun v => { acc with dst_net := v }
  else if fid = 7 then
    ((parse_number data).bind Value.as_u16).map fun v => { acc with src_port := v }
  else if fid = 11 then
    ((parse_number data).bind Value.as_u16).map fun v => { acc with dst_port := v }
  else if fid = 58 then
    ((parse_number data).bind Value.as_u16).map fun v => { acc with vlan_id := v }
  else if fid = 59 then
    ((parse_number data).bind Value.as_u16).map fun v => { acc with post_vlan_id := v }
  else if fid = 225 then (readIpv4 data).map fun a => { acc with post_nat_src_addr := a }
  else if fid = 226 then (readIpv4 data).map fun a => { acc with post_nat_dst_addr := a }
  else if fid = 227 then
    ((parse_number data).bind Value.as_u16).map fun v => { acc with post_napt_src_port := v }
  else if fid = 228 then
    ((parse_number data).bind Value.as_u16).map fun v => { acc with post_napt_dst_port := v }
  else if fid = 15 then (readIpv4 data).map fun a => { acc with next_hop_addr := a }
  else some acc

/-- The `for field in fields` loop of `IpfixParser::parse`: when the
remaining input is shorter than `field.length` the loop breaks (truncation
tolerated), otherwise the field's bytes are split off and dispatched. -/
def ipfixLoop : FlowAcc → List FieldSpecifier → List Nat → Option FlowAcc
  | acc, [], _ => some acc
  | acc, f :: rest, input =>
    if input.length < f.length then some acc
    else do
      let acc2 ← ipfixStep acc f.id (input.take f.length)
      ipfixLoop acc2 rest (input.drop f.length)

/-- The final `Fluss { .. }` expression built from the locals.
`flow_age := end - start` (exact in the non-panicking branch guarded by
`ipfixFinish`). -/
def flussOfAcc (acc : FlowAcc) : Fluss :=
  { type := FlowType.IPFIX, flow_age := acc.end_ - acc.start,
    bytes := acc.bytes, packets := acc.packets,
    ethernet_type := acc.ethernet_type,
    src_mac := acc.src_mac, dst_mac := acc.dst_mac,
    src_addr := acc.src_addr, dst_addr := acc.dst_addr,
    src_net := acc.src_net, dst_net := acc.dst_net,
    src_port := acc.src_port, dst_port := acc.dst_port,
    vlan_id := acc.vlan_id, post_vlan_id := acc.post_vlan_id,
    post_nat_src_addr := acc.post_nat_src_addr,
    post_nat_dst_addr := acc.post_nat_dst_addr,
    post_napt_src_port := acc.post_napt_src_port,
    post_napt_dst_port := acc.post_napt_dst_port,
    next_hop_addr := acc.next_hop_addr }

/-- `end - start` on `std::time::Duration` panics when `end < start`
(checked subtraction; there is no saturation in the source); the panic is
modelled as `none`. -/
def ipfixFinish (acc : FlowAcc) : Option Fluss :=
  if acc.end_ < acc.start then none else some (flussOfAcc acc)

/-- `IpfixParser::parse` (the `Parser` impl in src/produce/ipfix.rs). -/
def IpfixParser.parse (fields : List FieldSpecifier) (set : DataSet) : Option Fluss :=
  (ipfixLoop flowAccInit fields set.data).bind ipfixFinish

end Fluss

namespace Fluss

/-! ## Theorems -/

/-- Helper: number of chunks produced by `chunksGo` with positive chunk size
`S` on a list of length `n * S + r` (`r < S`): `n` full chunks plus one
trailing partial chunk when `r > 0`. -/
theorem chunksGo_length {α : Type} (S : Nat) (hS : 0 < S) :
    ∀ (fuel : Nat) (xs : List α) (n r : Nat), xs.length ≤ fuel →
      xs.length = n * S + r → r < S →
      (chunksGo S fuel xs).length = n + (if r = 0 then 0 else 1) := by
  intro fuel
  induction fuel with
  | zero =>
    intro xs n r hfuel hlen hr
    have hx : xs = [] := List.eq_nil_of_length_eq_zero (Nat.le_zero.mp hfuel)
    subst hx
    have h0 : n * S + r = 0 := by simpa using hlen.symm
    have hns : n * S = 0 := by omega
    have hr0 : r = 0 := by omega
    have hn0 : n = 0 := by
      rcases Nat.mul_eq_zero.mp hns with h | h
      · exact h
      · omega
    simp [chunksGo, hn0, hr0]
  | succ fuel ih =>
    intro xs n r hfuel hlen hr
    cases xs with
    | nil =>
      have h0 : n * S + r = 0 := by simpa using hlen.symm
      have hns : n * S = 0 := by omega
      have hr0 : r = 0 := by omega
      have hn0 : n = 0 := by
        rcases Nat.mul_eq_zero.mp hns with h | h
        · exact h
        · omega
      simp [chunksGo, hn0, hr0]
    | cons x tail =>
      cases n with
      | zero =>
        have hlc : tail.length + 1 = r := by simpa using hlen
        have hdrop : (x :: tail).drop S = [] := by
          apply List.eq_nil_of_length_eq_zero
          simp only [List.length_drop, List.length_cons]
          omega
        have hrne : ¬ r = 0 := by omega
        simp [chunksGo, hdrop, hrne]
      | succ m =>
        have hmul : (m + 1) * S = m * S + S := Nat.succ_mul m S
        have hlenc : tail.length + 1 = m * S + S + r := by
          have h2 : tail.length + 1 = (m + 1) * S + r := by simpa using hlen
          rw [hmul] at h2
          exact h2
        have hlen2 : ((x :: tail).drop S).length = m * S + r := by
          simp only [List.length_drop, List.length_cons]
          omega
        have hfuel2 : ((x :: tail).drop S).length ≤ fuel := by
          simp only [List.length_drop, List.length_cons]
          have hfc : tail.length + 1 ≤ fuel + 1 := by simpa using hfuel
          omega
        have hrec := ih ((x :: tail).drop S) m r hfuel2 hlen2 hr
        simp only [chunksGo, List.length_cons, hrec]
        by_cases hr0 : r = 0
        · simp [hr0]
        · simp [hr0]

/-- Claim C1 is false as stated: with a fixed stride of S = 2 (one field of
length 2) and a payload of L = 3 bytes (n = 1, r = 1), `parse_data_set`
invokes the projector twice — `chunks` also yields the trailing 1-byte
partial chunk — and produces 2 outputs, not n = 1. -/
theorem stride_partial_chunk_counterexample :
    (Session.parse_data_set IpfixParser.parse
      (Templates.insert emptyTemplates 256 [⟨999, 2, none⟩])
      { id := 256, data := [0, 0, 0] }).length = 2 := by rfl

/-- Claim C1 amended: for a fixed-stride template with stride S > 0 cached
for id T and a payload of length n·S + r (r < S), `Session::parse_data_set`
runs the projector once per chunk of `chunks(S)` — that is n times when
r = 0 and n + 1 times when r > 0, the last invocation receiving the r
trailing bytes — and the outputs are exactly the `Some` results of those
invocations. -/
theorem parse_data_set_chunk_count {Output : Type}
    (parser : List FieldSpecifier → DataSet → Option Output)
    (tmpl : Templates) (T S n r : Nat) (fields : List FieldSpecifier) (data : List Nat)
    (hS : 0 < S) (hsum : (fields.map fun f => f.length).sum = S)
    (ht : tmpl T = some fields) (hlen : data.length = n * S + r) (hr : r < S) :
    (chunksList S data).length = n + (if r = 0 then 0 else 1) ∧
    Session.parse_data_set parser tmpl { id := T, data := data } =
      (chunksList S data).filterMap fun c => parser fields { id := T, data := c } := by
  constructor
  · unfold chunksList
    rw [if_neg (by omega)]
    exact chunksGo_length S hS data.length data n r le_rfl hlen hr
  · simp only [Session.parse_data_set, ht, hsum]

/-- Witness for `parse_data_set_chunk_count` at stride 2, payload [0,0,0]
(n = 1, r = 1), with the flow projector attached. -/
theorem parse_data_set_chunk_count_witness :
    (chunksList 2 [0, 0, 0]).length = 1 + (if 1 = 0 then 0 else 1) ∧
    Session.parse_data_set IpfixParser.parse
        (Templates.insert emptyTemplates 256 [⟨999, 2, none⟩])
        { id := 256, data := [0, 0, 0] } =
      (chunksList 2 [0, 0, 0]).filterMap fun c =>
        IpfixParser.parse [⟨999, 2, none⟩] { id := 256, data := c } :=
  parse_data_set_chunk_count IpfixParser.parse
    (Templates.insert emptyTemplates 256 [⟨999, 2, none⟩]) 256 2 1 1
    [⟨999, 2, none⟩] [0, 0, 0] (by decide) (by rfl) (by rfl) (by decide) (by decide)

/-- Claim C2 is false as stated: this 20-byte datagram has version field
`0x0009` (≠ 10) and `parse` succeeds, returning a `Packet` with version 9
instead of any error. -/
theorem parse_version_nine_counterexample :
    parse [0, 9, 0, 20, 0, 0, 0, 0, 0, 0, 0, 0, 0, 0, 0, 0, 1, 0, 0, 4] =
      some { version := 9, export_time := 0, sequence_number := 0,
             observation_domain_id := 0,
             sets := [Set.DataSet { id := 256, data := [] }] } := by rfl

/-- Claim C2 amended: `parse` performs no validation of the version field at
all; for an otherwise well-formed datagram it returns a `Packet` carrying
whatever two-byte big-endian value stood in the version position. -/
theorem parse_no_version_check (hi lo : Nat) :
    parse (hi :: lo :: [0, 20, 0, 0, 0, 0, 0, 0, 0, 0, 0, 0, 0, 0, 1, 0, 0, 4]) =
      some { version := hi * 256 + lo, export_time := 0, sequence_number := 0,
             observation_domain_id := 0,
             sets := [Set.DataSet { id := 256, data := [] }] } := by rfl

/-- Claim C3 (confirmed): installing a template record with id T via
`add_records` replaces the cached field list entirely — afterwards the cache
maps T exactly to the new record's fields and every other id is unchanged —
and a subsequent data set with id T is decoded under the new definition.
The decode statement is guarded by a positive stride for the new field
list, the region where `chunksList` is faithful to `slice::chunks` (a
zero-stride template makes the source panic in `chunks(0)`). -/
theorem template_replacement {Output : Type}
    (parser : List FieldSpecifier → DataSet → Option Output)
    (tmpl : Templates) (T : Nat) (newFields : List FieldSpecifier)
    (d : List Nat) (k : Nat)
    (hS : 0 < (newFields.map fun f => f.length).sum) :
    Session.add_records tmpl [{ id := T, fields := newFields }] k =
      (if k = T then some newFields else tmpl k) ∧
    Session.parse_data_set parser (Session.add_records tmpl [{ id := T, fields := newFields }])
        { id := T, data := d } =
      (chunksList ((newFields.map fun f => f.length).sum) d).filterMap fun c =>
        parser newFields { id := T, data := c } := by
  constructor
  · rfl
  · simp [Session.parse_data_set, Session.add_records, Templates.insert]

/-- Witness for `template_replacement`: replacing the template for id 256 by
one field (id 999, length 2, stride 2) and decoding a 2-byte data set under
the new definition. -/
theorem template_replacement_witness :
    Session.add_records emptyTemplates
        [{ id := 256, fields := [⟨999, 2, none⟩] }] 0 =
      (if 0 = 256 then some [⟨999, 2, none⟩] else emptyTemplates 0) ∧
    Session.parse_data_set IpfixParser.parse
        (Session.add_records emptyTemplates [{ id := 256, fields := [⟨999, 2, none⟩] }])
        { id := 256, data := [0, 0] } =
      (chunksList (([(⟨999, 2, none⟩ : FieldSpecifier)].map fun f => f.length).sum)
          [0, 0]).filterMap fun c =>
        IpfixParser.parse [⟨999, 2, none⟩] { id := 256, data := c } :=
  template_replacement IpfixParser.parse emptyTemplates 256 [⟨999, 2, none⟩]
    [0, 0] 0 (by decide)

/-- Claim C4 (confirmed): a packet containing only a `DataSet` whose id has
no cached template emits zero outputs and leaves the template cache
unchanged. -/
theorem template_miss_emits_nothing {Output : Type}
    (parser : List FieldSpecifier → DataSet → Option Output)
    (tmpl : Templates) (T v e s o : Nat) (d : List Nat) (h : tmpl T = none) :
    Session.parse parser tmpl
      { version := v, export_time := e, sequence_number := s,
        observation_domain_id := o, sets := [Set.DataSet { id := T, data := d }] } =
      (tmpl, []) := by
  simp [Session.parse, Session.parse_data_set, h]

/-- Witness for `template_miss_emits_nothing`: fresh session, data set id
999, payload [1,2,3]. -/
theorem template_miss_emits_nothing_witness :
    Session.parse IpfixParser.parse emptyTemplates
      { version := 10, export_time := 0, sequence_number := 0,
        observation_domain_id := 0,
        sets := [Set.DataSet { id := 999, data := [1, 2, 3] }] } =
      (emptyTemplates, []) :=
  template_miss_emits_nothing IpfixParser.parse emptyTemplates 999 10 0 0 0 [1, 2, 3] rfl

/-- Claim C5: the code does not saturate.  Under a template whose fields are
flow start (IE 22, 4 bytes) then flow end (IE 21, 4 bytes), a record with
start = 1 ms and end = 0 ms makes `IpfixParser::parse` evaluate
`end - start` on `std::time::Duration` with end < start, which panics
(modelled as `none`) instead of emitting a flow with `flow_age = 0`. -/
theorem flow_age_underflow_panics :
    IpfixParser.parse [⟨22, 4, none⟩, ⟨21, 4, none⟩]
      { id := 256, data := [0, 0, 0, 1, 0, 0, 0, 0] } = none := by rfl

/-- Claim C6 is false as stated: this datagram contains a set with the
reserved set id 0, and `parse` succeeds, returning a `Packet` containing
that set as a `DataSet` instead of any error. -/
theorem reserved_set_id_counterexample :
    parse [0, 10, 0, 20, 0, 0, 0, 0, 0, 0, 0, 0, 0, 0, 0, 0, 0, 0, 0, 4] =
      some { version := 10, export_time := 0, sequence_number := 0,
             observation_domain_id := 0,
             sets := [Set.DataSet { id := 0, data := [] }] } := by rfl

/-- Claim C6 amended: there is no reserved-set-id validation; every set
whose id is neither 2 nor 3 — the reserved ids 0, 1 and 4..255 included —
is parsed by the data-set branch. -/
theorem parse_set_no_reserved_check (a b : Nat) (rest : List Nat)
    (h2 : a * 256 + b ≠ 2) (h3 : a * 256 + b ≠ 3) :
    parse_set (a :: b :: rest) = parse_data_set (a :: b :: rest) := by
  simp [parse_set, be_u16, h2, h3]

/-- Witness for `parse_set_no_reserved_check` at the reserved set id 0. -/
theorem parse_set_no_reserved_check_witness :
    (0 * 256 + 0 ≠ 2) ∧ (0 * 256 + 0 ≠ 3) ∧
    parse_set [0, 0, 0, 4] = parse_data_set [0, 0, 0, 4] :=
  ⟨by decide, by decide, parse_set_no_reserved_check 0 0 [0, 4] (by decide) (by decide)⟩

/-- Claim C7 is false as stated: for raw id `0x8000` bit 15 is set, yet
`parse_field_specifier` reads no enterprise id, because the source condition
is the strict `id > 0x8000`, not a test of bit 15. -/
theorem enterprise_bit_boundary_counterexample :
    parse_field_specifier [128, 0, 0, 4] =
      some ([], { id := 0, length := 4, enterprise_id := none }) ∧
    ((128 * 256 + 0) &&& 0x8000) ≠ 0 := by
  constructor
  · rfl
  · decide

/-- Claim C7 amended: `parse_field_specifier` reads the 4-byte enterprise id
if and only if the raw id is strictly greater than `0x8000` (so raw id
`0x8000` itself gets none), and the stored id is the raw id masked with
`0x7fff`, hence always at most `0x7fff`. -/
theorem field_specifier_enterprise_condition (a b : Nat) (rest r : List Nat)
    (fs : FieldSpecifier)
    (h : parse_field_specifier (a :: b :: rest) = some (r, fs)) :
    fs.id = (a * 256 + b) &&& 0x7fff ∧
    (fs.enterprise_id.isSome ↔ 0x8000 < a * 256 + b) ∧
    fs.id ≤ 0x7fff := by
  cases rest with
  | nil => simp [parse_field_specifier, be_u16] at h
  | cons c rest2 =>
    cases rest2 with
    | nil => simp [parse_field_specifier, be_u16] at h
    | cons d rest3 =>
      simp only [parse_field_specifier, be_u16] at h
      simp only [Option.bind_eq_bind, Option.some_bind] at h
      split at h
      case isTrue hid =>
        cases hbe : be_u32 rest3 with
        | none => rw [hbe] at h; simp at h
        | some p =>
          rw [hbe] at h
          simp only [Option.map_some', Option.some_bind, Option.pure_def,
            Option.some.injEq, Prod.mk.injEq] at h
          obtain ⟨h1, h2⟩ := h
          subst h2
          refine ⟨rfl, ?_, Nat.and_le_right⟩
          simp [hid]
      case isFalse hid =>
        simp only [Option.pure_def, Option.some.injEq, Prod.mk.injEq] at h
        obtain ⟨h1, h2⟩ := h
        subst h2
        refine ⟨rfl, ?_, Nat.and_le_right⟩
        simp [hid]

/-- Witness for `field_specifier_enterprise_condition` at raw id `0x9001`
with enterprise id `0x01020304`. -/
theorem field_specifier_enterprise_condition_witness :
    (FieldSpecifier.mk 4097 4 (some 16909060)).id = (144 * 256 + 1) &&& 0x7fff ∧
    ((FieldSpecifier.mk 4097 4 (some 16909060)).enterprise_id.isSome ↔
      0x8000 < 144 * 256 + 1) ∧
    (FieldSpecifier.mk 4097 4 (some 16909060)).id ≤ 0x7fff :=
  field_specifier_enterprise_condition 144 1 [0, 4, 1, 2, 3, 4] []
    (FieldSpecifier.mk 4097 4 (some 16909060)) (by rfl)

/-- Claim C8 is false in its error clause: on a 3-byte input `parse_number`
hits the `panic!("invalid byte length ...")` arm (modelled as `none`); the
source returns `Value` with no error channel, so no `BadNumberWidth` error
value is ever produced. -/
theorem parse_number_bad_width_counterexample : parse_number [0, 0, 0] = none := by rfl

/-- Claim C8 amended: `parse_number` decodes the big-endian unsigned integer
of matching width for inputs of length 1, 2, 4 or 8, and panics (it does not
return an error) on every other length. -/
theorem parse_number_width_dispatch (b : List Nat) :
    parse_number b =
      (if b.length = 8 then some (Value.U64 (beNat b))
       else if b.length = 4 then some (Value.U32 (beNat b))
       else if b.length = 2 then some (Value.U16 (beNat b))
       else if b.length = 1 then some (Value.U8 (beNat b))
       else none) := by
  unfold parse_number
  split_ifs with h8 h4 h2 h1
  · have htake : b.take 8 = b := by rw [← h8]; exact List.take_length ..
    simp [parse_u64, be_u64, h8, htake]
  · have htake : b.take 4 = b := by rw [← h4]; exact List.take_length ..
    simp [parse_u32, be_u32, h4, htake]
  · rcases List.length_eq_two.mp h2 with ⟨x, y, rfl⟩
    simp [parse_u16, be_u16, beNat]
  · rcases List.length_eq_one.mp h1 with ⟨x, rfl⟩
    simp [parse_u8, be_u8, beNat]
  · rfl

/-- Claim C9 (confirmed): for every numeric `Value` of width w, `as_uN`
returns `some` of the same numeric value for every N ≥ w and `none` for
every N < w, and every non-integer variant yields `none` under all four
coercions; the helpers are total. -/
theorem value_coercion_monotonic (n : Nat) (b : List Nat) :
    (Value.U8 n).as_u8 = some n ∧ (Value.U8 n).as_u16 = some n ∧
    (Value.U8 n).as_u32 = some n ∧ (Value.U8 n).as_u64 = some n ∧
    (Value.U16 n).as_u8 = none ∧ (Value.U16 n).as_u16 = some n ∧
    (Value.U16 n).as_u32 = some n ∧ (Value.U16 n).as_u64 = some n ∧
    (Value.U32 n).as_u8 = none ∧ (Value.U32 n).as_u16 = none ∧
    (Value.U32 n).as_u32 = some n ∧ (Value.U32 n).as_u64 = some n ∧
    (Value.U64 n).as_u8 = none ∧ (Value.U64 n).as_u16 = none ∧
    (Value.U64 n).as_u32 = none ∧ (Value.U64 n).as_u64 = some n ∧
    (Value.Bytes b).as_u8 = none ∧ (Value.Bytes b).as_u16 = none ∧
    (Value.Bytes b).as_u32 = none ∧ (Value.Bytes b).as_u64 = none ∧
    (Value.String b).as_u8 = none ∧ (Value.String b).as_u16 = none ∧
    (Value.String b).as_u32 = none ∧ (Value.String b).as_u64 = none ∧
    (Value.Ipv4Addr n).as_u8 = none ∧ (Value.Ipv4Addr n).as_u16 = none ∧
    (Value.Ipv4Addr n).as_u32 = none ∧ (Value.Ipv4Addr n).as_u64 = none ∧
    (Value.Ipv6Addr n).as_u8 = none ∧ (Value.Ipv6Addr n).as_u16 = none ∧
    (Value.Ipv6Addr n).as_u32 = none ∧ (Value.Ipv6Addr n).as_u64 = none ∧
    (Value.MacAddr6 b).as_u8 = none ∧ (Value.MacAddr6 b).as_u16 = none ∧
    (Value.MacAddr6 b).as_u32 = none ∧ (Value.MacAddr6 b).as_u64 = none ∧
    (Value.MacAddr8 b).as_u8 = none ∧ (Value.MacAddr8 b).as_u16 = none ∧
    (Value.MacAddr8 b).as_u32 = none ∧ (Value.MacAddr8 b).as_u64 = none ∧
    (Value.Unknown b).as_u8 = none ∧ (Value.Unknown b).as_u16 = none ∧
    (Value.Unknown b).as_u32 = none ∧ (Value.Unknown b).as_u64 = none := by
  repeat' apply And.intro
  all_goals rfl

/-- Claim C10 is false as stated: with a field list of one field (IE 1,
length 3) and a 3-byte payload — no truncation at all — `IpfixParser::parse`
panics (modelled as `none`) inside `parse_number(data).as_u64().unwrap()`,
so it does not return `Some(Flow)` for every field list and data slice. -/
theorem ipfix_parse_panic_counterexample :
    IpfixParser.parse [⟨1, 3, none⟩] { id := 256, data := [0, 0, 0] } = none := by rfl

/-- Claim C10 amended: whenever the field loop completes without hitting a
decode panic (final locals `acc`) and the accumulated end time is not before
the start time, `IpfixParser::parse` returns `Some` of the flow built from
`acc` (slots never written stay at their defaults: numerics zero, addresses
127.0.0.1, MACs broadcast, as set by `flowAccInit`); and whenever the
remaining input is shorter than the next field's length, the loop stops at
that field, keeping the accumulator built so far. -/
theorem ipfix_truncation_partial_flow (fields : List FieldSpecifier) (id0 : Nat)
    (data : List Nat) (acc : FlowAcc)
    (hloop : ipfixLoop flowAccInit fields data = some acc)
    (hord : acc.start ≤ acc.end_) :
    IpfixParser.parse fields { id := id0, data := data } = some (flussOfAcc acc) ∧
    (flussOfAcc acc).flow_age = acc.end_ - acc.start ∧
    (∀ (acc2 : FlowAcc) (f : FieldSpecifier) (rest : List FieldSpecifier)
        (input : List Nat),
      input.length < f.length → ipfixLoop acc2 (f :: rest) input = some acc2) := by
  refine ⟨?_, rfl, ?_⟩
  · show (ipfixLoop flowAccInit fields data).bind ipfixFinish = some (flussOfAcc acc)
    rw [hloop]
    show ipfixFinish acc = some (flussOfAcc acc)
    unfold ipfixFinish
    rw [if_neg (Nat.not_lt.mpr hord)]
  · intro acc2 f rest input hlt
    simp only [ipfixLoop]
    rw [if_pos hlt]

/-- Witness for `ipfix_truncation_partial_flow`: fields (IE 7 len 2,
IE 11 len 2) against the 3-byte payload [0, 80, 0]: the first field sets
src_port := 80, the second hits truncation, and the partial flow is
emitted. -/
theorem ipfix_truncation_partial_flow_witness :
    IpfixParser.parse [⟨7, 2, none⟩, ⟨11, 2, none⟩] { id := 256, data := [0, 80, 0] } =
      some (flussOfAcc { flowAccInit with src_port := 80 }) ∧
    (flussOfAcc { flowAccInit with src_port := 80 }).flow_age =
      ({ flowAccInit with src_port := 80 } : FlowAcc).end_ -
        ({ flowAccInit with src_port := 80 } : FlowAcc).start ∧
    (∀ (acc2 : FlowAcc) (f : FieldSpecifier) (rest : List FieldSpecifier)
        (input : List Nat),
      input.length < f.length → ipfixLoop acc2 (f :: rest) input = some acc2) :=
  ipfix_truncation_partial_flow [⟨7, 2, none⟩, ⟨11, 2, none⟩] 256 [0, 80, 0]
    { flowAccInit with src_port := 80 } (by rfl) (by decide)

end Fluss
